import Mathlib

/-!
Shallow embedding of `app.py`: a Flask app that serves NSE derivative
symbols, caches options-chain data per (symbol, expiry) in one JSON file
per key under `data/`, and streams a Gemini analysis as Server-Sent
Events.  Pure functions below are translated from the source; external
effects (filesystem, the NSE provider, the Gemini stream, the clock) are
passed in explicitly as values.
-/

namespace App

/-- A JSON value, as produced by `json.load` / consumed by `json.dump`. -/
inductive Json where
  | null
  | bool (b : Bool)
  | num (n : Int)
  | str (s : String)
  | arr (xs : List Json)
  | obj (fields : List (String × Json))

/-- Python truthiness of a JSON value (`if not options_data:`):
`None` is handled separately; empty containers, `0`, `""`, `False`,
`null` are falsy. -/
def Json.falsy : Json → Bool
  | .null => true
  | .bool b => !b
  | .num n => n == 0
  | .str s => s.isEmpty
  | .arr xs => xs.isEmpty
  | .obj fs => fs.isEmpty

/-- Python dict assignment `d[k] = v`: replace the value of an existing
key in place, otherwise append the new key (insertion order). -/
def setField : List (String × Json) → String → Json → List (String × Json)
  | [], k, v => [(k, v)]
  | (k', v') :: rest, k, v =>
      if k' == k then (k, v) :: rest else (k', v') :: setField rest k v

/-- `d[k]` on a JSON value: `KeyError` for a missing key on a dict,
`TypeError` when the value is not a dict. -/
def getKey (j : Json) (k : String) : Except String Json :=
  match j with
  | .obj fs =>
      match fs.find? (fun e => e.1 == k) with
      | some e => .ok e.2
      | none => .error "KeyError"
  | _ => .error "TypeError"

-- ---------------------------------------------------------------------
-- Symbols (`get_default_derivative_symbols`, `load_nse_derivative_symbols`)
-- ---------------------------------------------------------------------

def get_default_derivative_symbols : List String :=
  ["NIFTY", "BANKNIFTY", "FINNIFTY", "MIDCPNIFTY",
   "RELIANCE", "TCS", "HDFCBANK", "ICICIBANK", "INFY", "SBIN", "LT"]

/-- `sorted(set(symbols))` on a list of strings: deduplicate, then sort
lexicographically (a stable structural sort stands in for CPython's
stable sort; on deduplicated input every stable sort agrees). -/
def sortedSet (xs : List String) : List String :=
  List.insertionSort (fun a b => a ≤ b) (xs.eraseDups)

/-- The observable states of the local symbol file, as the code can
encounter them: the path does not exist; `open()` itself raises (the
file exists but cannot be opened, e.g. permissions); `json.load` raises
(unparsable content, or a read error while loading — both are caught by
the bare `except`); valid JSON that is not a list; or a JSON array of
strings. -/
inductive SymFileState where
  | absent
  | openFails
  | loadRaises
  | parsedNonList
  | parsedList (xs : List String)

/-- `load_nse_derivative_symbols`: `.error` means an exception escapes to
the caller.  Note `open(file_path, "r")` is executed OUTSIDE the
`try`, so a failing `open` propagates; everything inside the `try`
falls back to the default list. -/
def load_nse_derivative_symbols : SymFileState → Except String (List String)
  | .absent => .ok get_default_derivative_symbols
  | .openFails => .error "OSError"
  | .loadRaises => .ok get_default_derivative_symbols
  | .parsedNonList => .ok get_default_derivative_symbols
  | .parsedList xs => .ok (sortedSet xs)

-- ---------------------------------------------------------------------
-- Cache (`fetch_and_cache_options_data`)
-- ---------------------------------------------------------------------

/-- What a cache file holds: content that parses as JSON `j`, or content
on which `json.load` raises. -/
inductive FileContent where
  | valid (j : Json)
  | invalid

/-- The cache directory: an association of file path to
(last-modified time in minutes, content).  Later writes shadow and
erase earlier entries for the same path. -/
structure FS where
  files : List (String × Nat × FileContent)

def FS.lookup (fs : FS) (p : String) : Option (Nat × FileContent) :=
  (fs.files.find? (fun e => e.1 == p)).map (fun e => e.2)

def FS.write (fs : FS) (p : String) (m : Nat) (c : FileContent) : FS :=
  ⟨(p, m, c) :: fs.files.filter (fun e => !(e.1 == p))⟩

/-- `os.path.join(DATA_DIR, f"{symbol}_{expiry_date}.json")` with
`DATA_DIR = "data"`. -/
def cachePath (symbol expiry_date : String) : String :=
  "data/" ++ symbol ++ "_" ++ expiry_date ++ ".json"

/-- `current_time.isoformat()`: the textual rendering of the clock
reading stamped into the payload (the exact format is irrelevant to
every claim; only the reading itself matters). -/
def isoformat (t : Nat) : String := toString t

/-- Outcome of one `fetch_and_cache_options_data` call:
`result` is `.error` when an exception escapes to the caller,
`.ok none` when the function returns `None`, `.ok (some j)` when it
returns data `j`; `fs` is the cache directory afterwards; `calls`
records each argument passed to `nse_optionchain_scrapper`. -/
structure FetchResult where
  result : Except String (Option Json)
  fs : FS
  calls : List String

/-- The body of the `try` block: call the provider on `symbol` alone,
stamp `fetch_timestamp`, write the file, return the data.  Any raise —
from the provider, or the `TypeError` of stamping a non-dict — is caught
and turned into `None` with nothing written. -/
def fetchFresh (provider : String → Except String Json)
    (symbol path : String) (now : Nat) (fs : FS) : FetchResult :=
  match provider symbol with
  | .ok (.obj fields) =>
      let stamped := Json.obj (setField fields "fetch_timestamp" (.str (isoformat now)))
      ⟨.ok (some stamped), fs.write path now (.valid stamped), [symbol]⟩
  | .ok _ => ⟨.ok none, fs, [symbol]⟩
  | .error _ => ⟨.ok none, fs, [symbol]⟩

/-- `fetch_and_cache_options_data(symbol, expiry_date)`.  `provider` is
`nse_optionchain_scrapper`, `now` the clock reading in minutes, `fs` the
cache directory.  A file younger than 30 minutes is read back as-is
(`json.load` outside any `try`: invalid content raises to the caller);
otherwise the fresh-fetch path runs. -/
def fetch_and_cache_options_data (provider : String → Except String Json)
    (symbol expiry_date : String) (now : Nat) (fs : FS) : FetchResult :=
  let path := cachePath symbol expiry_date
  match fs.lookup path with
  | some (last_modified, content) =>
      if (now : Int) - last_modified < 30 then
        match content with
        | .valid j => ⟨.ok (some j), fs, []⟩
        | .invalid => ⟨.error "JSONDecodeError", fs, []⟩
      else fetchFresh provider symbol path now fs
  | none => fetchFresh provider symbol path now fs

-- ---------------------------------------------------------------------
-- Gemini streamer (`stream_analysis_with_gemini`)
-- ---------------------------------------------------------------------

/-- One part of a streamed candidate: `text` is `some t` when the part
has a `text` attribute carrying `t`. -/
structure GPart where
  text : Option String

/-- One candidate: its `content.parts`. -/
structure Candidate where
  parts : List GPart

/-- One streamed chunk: its `candidates`. -/
structure Chunk where
  candidates : List Candidate

/-- What the provider's `generate_content(..., stream=True)` iteration
does for this request: the chunks it yields in order, then `error = some e`
if iteration raises an exception with message `e` (possibly mid-stream,
after some chunks), `none` if it completes normally. -/
structure GeminiStream where
  chunks : List Chunk
  error : Option String

/-- The events the loop body emits for one chunk:
`if chunk.candidates and chunk.candidates[0].content.parts:` then one
`data: {part.text}\n\n` event per part of the FIRST candidate that has a
`text` attribute. -/
def chunkEvents (c : Chunk) : List String :=
  match c.candidates with
  | [] => []
  | cand :: _ =>
      if cand.parts.isEmpty then []
      else cand.parts.filterMap (fun p => p.text.map (fun t => "data: " ++ t ++ "\n\n"))

/-- `stream_analysis_with_gemini` as the list of SSE events it yields:
each chunk's text events in order, then `data: [END]\n\n` on normal
completion, or a single `data: Error analyzing with Gemini: {e}\n\n`
event when the stream raises. -/
def stream_analysis_with_gemini (s : GeminiStream) : List String :=
  (s.chunks.flatMap chunkEvents) ++
    match s.error with
    | none => ["data: [END]\n\n"]
    | some e => ["data: Error analyzing with Gemini: " ++ e ++ "\n\n"]

/-- The text fragments of the stream as the code sees them: the `text`
payloads of the first candidate's parts, per chunk, in order. -/
def chunkTexts (c : Chunk) : List String :=
  match c.candidates with
  | [] => []
  | cand :: _ => cand.parts.filterMap (fun p => p.text)

def textFragments (chunks : List Chunk) : List String :=
  chunks.flatMap chunkTexts

-- ---------------------------------------------------------------------
-- `/stream_analysis` handler
-- ---------------------------------------------------------------------

/-- The `/stream_analysis` handler body, as the list of SSE events of
the response: `fetch_and_cache_options_data`'s result is `options_data`;
`if not options_data:` (None, or a falsy value) returns the single
`data: Error fetching data\n\n` event, else the Gemini stream relay. -/
def stream_analysis (options_data : Option Json) (s : GeminiStream) : List String :=
  match options_data with
  | none => ["data: Error fetching data\n\n"]
  | some j => if j.falsy then ["data: Error fetching data\n\n"] else stream_analysis_with_gemini s

-- ---------------------------------------------------------------------
-- `/get_expiries` handler
-- ---------------------------------------------------------------------

/-- Boolean list-prefix test (structural, over characters). -/
def charsLead : List Char → List Char → Bool
  | [], _ => true
  | _ :: _, [] => false
  | a :: as, b :: bs => a == b && charsLead as bs

/-- Does `p` begin the string `s`? -/
def strStartsWith (p s : String) : Bool := charsLead p.data s.data

/-- `datetime.strptime(x, "%d-%b-%Y")` helpers: split a character list
on `-`. -/
def splitDash : List Char → List (List Char)
  | [] => [[]]
  | c :: rest =>
      if c == '-' then [] :: splitDash rest
      else
        match splitDash rest with
        | [] => [[c]]
        | g :: gs => (c :: g) :: gs

/-- Digits-only numeral value; `none` when empty or a non-digit occurs. -/
def digitsVal : List Char → Option Nat
  | [] => none
  | cs =>
      if cs.all (fun c => c.isDigit) then
        some (cs.foldl (fun acc c => acc * 10 + (c.toNat - '0'.toNat)) 0)
      else none

/-- `%b`: abbreviated month name, matched case-insensitively as
`strptime` does. -/
def monthNum (cs : List Char) : Option Nat :=
  match (cs.map Char.toLower) with
  | ['j', 'a', 'n'] => some 1
  | ['f', 'e', 'b'] => some 2
  | ['m', 'a', 'r'] => some 3
  | ['a', 'p', 'r'] => some 4
  | ['m', 'a', 'y'] => some 5
  | ['j', 'u', 'n'] => some 6
  | ['j', 'u', 'l'] => some 7
  | ['a', 'u', 'g'] => some 8
  | ['s', 'e', 'p'] => some 9
  | ['o', 'c', 't'] => some 10
  | ['n', 'o', 'v'] => some 11
  | ['d', 'e', 'c'] => some 12
  | _ => none

def isLeap (y : Nat) : Bool :=
  (y % 4 == 0 && y % 100 != 0) || y % 400 == 0

def daysInMonth (y m : Nat) : Nat :=
  if m == 2 then (if isLeap y then 29 else 28)
  else if m == 4 || m == 6 || m == 9 || m == 11 then 30
  else 31

/-- `datetime.strptime(x, "%d-%b-%Y")` as a calendar date
`(year, month, day)`; `none` models the `ValueError` raise: the string
must be `day-month-year` with a 1–2 digit day valid for the month, an
abbreviated month name, and a 4-digit year (`datetime` years start
at 1). -/
def strptimeDMY (s : String) : Option (Nat × Nat × Nat) :=
  match splitDash s.data with
  | [ds, ms, ys] =>
      if ds.length == 0 || 2 < ds.length then none
      else if ys.length != 4 then none
      else
        match digitsVal ds, monthNum ms, digitsVal ys with
        | some d, some m, some y =>
            if 1 ≤ y ∧ 1 ≤ d ∧ d ≤ daysInMonth y m then some (y, m, d) else none
        | _, _, _ => none
  | _ => none

/-- Chronological order on parsed dates (what comparing the `datetime`
keys does): lexicographic on (year, month, day). -/
def dateLE (a b : Nat × Nat × Nat) : Bool :=
  a.1 < b.1 || (a.1 == b.1 && (a.2.1 < b.2.1 || (a.2.1 == b.2.1 && a.2.2 ≤ b.2.2)))

/-- The elements `sorted()` iterates must all be strings for
`strptime`; the first non-string raises `TypeError`. -/
def strList : List Json → Except String (List String)
  | [] => .ok []
  | .str s :: rest =>
      match strList rest with
      | .ok ss => .ok (s :: ss)
      | .error e => .error e
  | _ :: _ => .error "TypeError"

def asStringList (j : Json) : Except String (List String) :=
  match j with
  | .arr xs => strList xs
  | _ => .error "TypeError"

/-- `options_data["records"]["expiryDates"]` as a list of strings: the
raw expiry list the handler sorts. -/
def rawExpiries (providerResult : Except String Json) :
    Except String (List String) :=
  match providerResult with
  | .error e => .error e
  | .ok options_data =>
      match getKey options_data "records" with
      | .error e => .error e
      | .ok records =>
          match getKey records "expiryDates" with
          | .error e => .error e
          | .ok rawJson => asStringList rawJson

/-- The key computation of `sorted(..., key=...)`: pair every string
with its parsed date, raising `ValueError` at the first unparsable
one. -/
def keyExpiries : List String → Except String (List ((Nat × Nat × Nat) × String))
  | [] => .ok []
  | s :: rest =>
      match strptimeDMY s with
      | none => .error "ValueError"
      | some d =>
          match keyExpiries rest with
          | .ok ks => .ok ((d, s) :: ks)
          | .error e => .error e

/-- The sort key order of `sorted(raw_expiries, key=strptime...)`:
compare the attached `datetime` keys. -/
def keyLE (a b : (Nat × Nat × Nat) × String) : Prop := dateLE a.1 b.1 = true

instance : DecidableRel keyLE := fun a b =>
  inferInstanceAs (Decidable (dateLE a.1 b.1 = true))

instance : IsTotal ((Nat × Nat × Nat) × String) keyLE :=
  ⟨fun a b => by
    rcases a with ⟨⟨y1, m1, d1⟩, s1⟩
    rcases b with ⟨⟨y2, m2, d2⟩, s2⟩
    simp only [keyLE, dateLE, Bool.or_eq_true, Bool.and_eq_true, decide_eq_true_eq,
      beq_iff_eq]
    omega⟩

instance : IsTrans ((Nat × Nat × Nat) × String) keyLE :=
  ⟨fun a b c h1 h2 => by
    rcases a with ⟨⟨y1, m1, d1⟩, s1⟩
    rcases b with ⟨⟨y2, m2, d2⟩, s2⟩
    rcases c with ⟨⟨y3, m3, d3⟩, s3⟩
    simp only [keyLE, dateLE, Bool.or_eq_true, Bool.and_eq_true, decide_eq_true_eq,
      beq_iff_eq] at h1 h2 ⊢
    omega⟩

/-- The `try` body of `get_expiries`: provider call, key extraction,
key computation, and the stable chronological sort (a stable structural
sort stands in for CPython's stable sort). -/
def expiriesComputation (providerResult : Except String Json) :
    Except String (List String) :=
  match rawExpiries providerResult with
  | .error e => .error e
  | .ok raw_expiries =>
      match keyExpiries raw_expiries with
      | .error e => .error e
      | .ok keyed => .ok ((List.insertionSort keyLE keyed).map (fun e => e.2))

/-- Chronological comparability of two expiry strings: both parse and
the first's date is not after the second's. -/
def chronLE (a b : String) : Bool :=
  match strptimeDMY a, strptimeDMY b with
  | some da, some db => dateLE da db
  | _, _ => false

/-- The `/get_expiries` handler: the JSON body is
`{"expiries": ...}` with the sorted list, or `[]` when anything in the
`try` raised.  The HTTP status is always 200 (`jsonify` of a plain
dict); the returned value is the `expiries` list. -/
def get_expiries (providerResult : Except String Json) : List String :=
  match expiriesComputation providerResult with
  | .ok sorted_expiries => sorted_expiries
  | .error _ => []

-- ---------------------------------------------------------------------
-- Response-ending contracts and concrete sample values
-- ---------------------------------------------------------------------

/-- The spec's termination contract on a `/stream_analysis` body: the
last event is `data: [END]` or has the form
`data: Error analyzing with Gemini: <message>`. -/
def endsWithContract (out : List String) : Bool :=
  match out.getLast? with
  | some ev => ev == "data: [END]\n\n" || strStartsWith "data: Error analyzing with Gemini: " ev
  | none => false

/-- The contract the code actually obeys: additionally the body may be
the single absent-cache event `data: Error fetching data`. -/
def endsWithContractAmended (out : List String) : Bool :=
  match out.getLast? with
  | some ev => ev == "data: [END]\n\n" || strStartsWith "data: Error analyzing with Gemini: " ev
      || ev == "data: Error fetching data\n\n"
  | none => false

/-- A sample stored snapshot. -/
def sampleSnap : Json := .obj [("strikePrice", .num 24000)]

/-- A cache directory holding one file for (NIFTY, 30-Jan-2025) written
at minute 0. -/
def sampleFS : FS := ⟨[("data/NIFTY_30-Jan-2025.json", 0, .valid sampleSnap)]⟩

/-- A cache directory holding one unparsable file for the same key. -/
def corruptFS : FS := ⟨[("data/NIFTY_30-Jan-2025.json", 0, .invalid)]⟩

/-- A provider whose call always raises. -/
def failingProvider : String → Except String Json := fun _ => .error "ConnectionError"

/-- The fields of a fixed options-chain dict. -/
def okFields : List (String × Json) :=
  [("records", .obj [("expiryDates", .arr [.str "06-Feb-2025", .str "30-Jan-2025"])])]

/-- A provider that returns that fixed options-chain dict. -/
def okProvider : String → Except String Json := fun _ => .ok (.obj okFields)

/-- The Gemini stream that yields the fragments `["Hello ", "world"]`
and completes. -/
def helloStream : GeminiStream :=
  ⟨[⟨[⟨[⟨some "Hello "⟩]⟩]⟩, ⟨[⟨[⟨some "world"⟩]⟩]⟩], none⟩

-- ---------------------------------------------------------------------
-- Helper lemmas
-- ---------------------------------------------------------------------

theorem fetchFresh_calls (provider : String → Except String Json)
    (symbol path : String) (now : Nat) (fs : FS) :
    (fetchFresh provider symbol path now fs).calls = [symbol] := by
  unfold fetchFresh
  cases hp : provider symbol with
  | error e => rfl
  | ok j => cases j <;> rfl

theorem lookup_write_self (fs : FS) (p : String) (m : Nat) (c : FileContent) :
    (fs.write p m c).lookup p = some (m, c) := by
  simp [FS.write, FS.lookup]

theorem find?_filter_ne (l : List (String × Nat × FileContent)) (p q : String)
    (h : p ≠ q) :
    List.find? (fun e => e.1 == q) (l.filter (fun e => !(e.1 == p))) =
      List.find? (fun e => e.1 == q) l := by
  induction l with
  | nil => rfl
  | cons a t ih =>
    rw [List.filter_cons]
    by_cases hpa : a.1 = p
    · have hhead : ¬ ((fun (e : String × Nat × FileContent) => e.1 == q) a = true) := by
        simp [hpa]
        exact h
      rw [if_neg (show ¬ ((!(a.1 == p)) = true) by simp [hpa]),
        List.find?_cons_of_neg t hhead]
      exact ih
    · rw [if_pos (show (!(a.1 == p)) = true by simp [hpa])]
      by_cases hqa : a.1 = q
      · rw [List.find?_cons_of_pos (List.filter (fun e => !(e.1 == p)) t) (by simp [hqa]),
          List.find?_cons_of_pos t (by simp [hqa])]
      · rw [List.find?_cons_of_neg (List.filter (fun e => !(e.1 == p)) t) (by simp [hqa]),
          List.find?_cons_of_neg t (by simp [hqa])]
        exact ih

theorem lookup_write_ne (fs : FS) (p q : String) (m : Nat) (c : FileContent)
    (h : p ≠ q) : (fs.write p m c).lookup q = fs.lookup q := by
  have h1 : (p == q) = false := by simp [h]
  simp [FS.write, FS.lookup, List.find?_cons, h1, find?_filter_ne fs.files p q h]

theorem fetchFresh_lookup_ne (provider : String → Except String Json)
    (symbol path q : String) (now : Nat) (fs : FS) (h : path ≠ q) :
    (fetchFresh provider symbol path now fs).fs.lookup q = fs.lookup q := by
  unfold fetchFresh
  cases hp : provider symbol with
  | error e => rfl
  | ok j => cases j <;> simp [lookup_write_ne _ _ _ _ _ h]

theorem cachePath_inj (symbol e1 e2 : String)
    (h : cachePath symbol e1 = cachePath symbol e2) : e1 = e2 := by
  have hd := congrArg String.data h
  simp only [cachePath, String.data_append] at hd
  have h1 := List.append_cancel_right hd
  have h2 := List.append_cancel_left h1
  exact String.ext h2

theorem chunkEvents_eq (c : Chunk) :
    chunkEvents c = (chunkTexts c).map (fun t => "data: " ++ t ++ "\n\n") := by
  unfold chunkEvents chunkTexts
  cases c with
  | mk cands =>
    cases cands with
    | nil => rfl
    | cons cand rest =>
      by_cases he : cand.parts.isEmpty
      · have : cand.parts = [] := by
          cases hp : cand.parts with
          | nil => rfl
          | cons a l => rw [hp] at he; simp [List.isEmpty] at he
        simp [he, this]
      · simp only [he, if_false, List.map_filterMap]
        rfl

theorem charsLead_append (l t : List Char) : charsLead l (l ++ t) = true := by
  induction l with
  | nil => rfl
  | cons a as ih => simp [charsLead, ih]

theorem strStartsWith_append (p t : String) : strStartsWith p (p ++ t) = true := by
  simp only [strStartsWith, String.data_append]
  exact charsLead_append p.data t.data

theorem keyExpiries_map_snd (raw : List String)
    (keyed : List ((Nat × Nat × Nat) × String))
    (h : keyExpiries raw = .ok keyed) : keyed.map (fun e => e.2) = raw := by
  induction raw generalizing keyed with
  | nil =>
    simp [keyExpiries] at h
    subst h; rfl
  | cons s rest ih =>
    simp only [keyExpiries] at h
    cases hp : strptimeDMY s with
    | none => rw [hp] at h; exact absurd h (by simp)
    | some d =>
      rw [hp] at h
      cases hk : keyExpiries rest with
      | error e => rw [hk] at h; exact absurd h (by simp)
      | ok ks =>
        rw [hk] at h
        cases h
        simp [ih ks hk]

theorem keyExpiries_parse (raw : List String)
    (keyed : List ((Nat × Nat × Nat) × String))
    (h : keyExpiries raw = .ok keyed) :
    ∀ p ∈ keyed, strptimeDMY p.2 = some p.1 := by
  induction raw generalizing keyed with
  | nil =>
    simp [keyExpiries] at h
    subst h; intro p hp; cases hp
  | cons s rest ih =>
    simp only [keyExpiries] at h
    cases hp : strptimeDMY s with
    | none => rw [hp] at h; exact absurd h (by simp)
    | some d =>
      rw [hp] at h
      cases hk : keyExpiries rest with
      | error e => rw [hk] at h; exact absurd h (by simp)
      | ok ks =>
        rw [hk] at h
        cases h
        intro p hmem
        rcases List.mem_cons.mp hmem with heq | hmem2
        · subst heq; exact hp
        · exact ih ks hk p hmem2

-- ---------------------------------------------------------------------
-- Claims
-- ---------------------------------------------------------------------

/-- C1: a cache entry written at time T for key (symbol, expiry) is
returned unchanged (the exact stored contents, with no provider call and
no write) by any read strictly less than 30 minutes later; any read more
than 30 minutes later treats the entry as absent (it behaves exactly as
the no-entry fetch path) and performs a fresh provider fetch. -/
theorem c1_cache_window (provider : String → Except String Json)
    (symbol expiry_date : String) (j : Json) (T now : Nat) (fs : FS)
    (h : fs.lookup (cachePath symbol expiry_date) = some (T, .valid j)) :
    ((now : Int) - T < 30 →
      fetch_and_cache_options_data provider symbol expiry_date now fs =
        ⟨.ok (some j), fs, []⟩) ∧
    (30 < (now : Int) - T →
      fetch_and_cache_options_data provider symbol expiry_date now fs =
        fetchFresh provider symbol (cachePath symbol expiry_date) now fs ∧
      (fetch_and_cache_options_data provider symbol expiry_date now fs).calls =
        [symbol]) := by
  constructor
  · intro hlt
    simp [fetch_and_cache_options_data, h, hlt]
  · intro hgt
    have hnlt : ¬ ((now : Int) - T < 30) := by omega
    have hmain : fetch_and_cache_options_data provider symbol expiry_date now fs =
        fetchFresh provider symbol (cachePath symbol expiry_date) now fs := by
      simp [fetch_and_cache_options_data, h, hnlt]
    exact ⟨hmain, by rw [hmain]; exact fetchFresh_calls provider symbol _ now fs⟩

/-- Witness for C1 at a concrete input: a hit at T+29 returns the stored
snapshot untouched; a read at T+31 calls the provider. -/
theorem c1_cache_window_witness :
    fetch_and_cache_options_data failingProvider "NIFTY" "30-Jan-2025" 29 sampleFS =
      ⟨.ok (some sampleSnap), sampleFS, []⟩ ∧
    (fetch_and_cache_options_data failingProvider "NIFTY" "30-Jan-2025" 31 sampleFS).calls =
      ["NIFTY"] :=
  ⟨(c1_cache_window failingProvider "NIFTY" "30-Jan-2025" sampleSnap 0 29 sampleFS rfl).1
      (by decide),
   ((c1_cache_window failingProvider "NIFTY" "30-Jan-2025" sampleSnap 0 31 sampleFS rfl).2
      (by decide)).2⟩

/-- C2: when the cache misses and the provider call raises, the
function returns `None` (no exception escapes), the cache directory is
untouched, and the provider was invoked once with the symbol alone. -/
theorem c2_provider_error (provider : String → Except String Json)
    (symbol expiry_date e : String) (now : Nat) (fs : FS)
    (hmiss : ∀ m c, fs.lookup (cachePath symbol expiry_date) = some (m, c) →
      30 ≤ (now : Int) - m)
    (herr : provider symbol = .error e) :
    fetch_and_cache_options_data provider symbol expiry_date now fs =
      ⟨.ok none, fs, [symbol]⟩ := by
  cases hl : fs.lookup (cachePath symbol expiry_date) with
  | none => simp [fetch_and_cache_options_data, hl, fetchFresh, herr]
  | some mc =>
    rcases mc with ⟨m, c⟩
    have hge := hmiss m c hl
    have hnlt : ¬ ((now : Int) - m < 30) := by omega
    simp [fetch_and_cache_options_data, hl, hnlt, fetchFresh, herr]

/-- Witness for C2: empty cache, raising provider. -/
theorem c2_provider_error_witness :
    fetch_and_cache_options_data failingProvider "NIFTY" "30-Jan-2025" 0 ⟨[]⟩ =
      ⟨.ok none, ⟨[]⟩, ["NIFTY"]⟩ :=
  c2_provider_error failingProvider "NIFTY" "30-Jan-2025" "ConnectionError" 0 ⟨[]⟩
    (fun m c hmc => by simp [FS.lookup, List.find?] at hmc) rfl

/-- C7 counterexample: a stale entry (written at minute 0, read at
minute 31) together with a raising provider is NOT overwritten on the
next read — the directory still holds the old entry afterwards — so the
claim's "unconditionally overwritten with a freshly fetched snapshot on
the next read" is false. -/
theorem c7_counterexample :
    fetch_and_cache_options_data failingProvider "NIFTY" "30-Jan-2025" 31 sampleFS =
      ⟨.ok none, sampleFS, ["NIFTY"]⟩ := rfl

/-- C7 amended: a stale entry is treated as absent (the call behaves
exactly as the no-entry fetch path and invokes the provider); when the
fetch succeeds the entry is overwritten with the freshly stamped
snapshot, and when it fails the directory is left unchanged. -/
theorem c7_stale_overwrite (provider : String → Except String Json)
    (symbol expiry_date : String) (now m : Nat) (c : FileContent) (fs : FS)
    (h : fs.lookup (cachePath symbol expiry_date) = some (m, c))
    (hstale : 30 ≤ (now : Int) - m) :
    (fetch_and_cache_options_data provider symbol expiry_date now fs =
      fetchFresh provider symbol (cachePath symbol expiry_date) now fs) ∧
    (fetch_and_cache_options_data provider symbol expiry_date now fs).calls = [symbol] ∧
    (∀ fields, provider symbol = .ok (.obj fields) →
      (fetch_and_cache_options_data provider symbol expiry_date now fs).fs.lookup
          (cachePath symbol expiry_date) =
        some (now, .valid (Json.obj (setField fields "fetch_timestamp"
          (.str (isoformat now))))) ∧
      (fetch_and_cache_options_data provider symbol expiry_date now fs).result =
        .ok (some (Json.obj (setField fields "fetch_timestamp"
          (.str (isoformat now)))))) ∧
    (∀ e, provider symbol = .error e →
      (fetch_and_cache_options_data provider symbol expiry_date now fs).fs = fs) := by
  have hnlt : ¬ ((now : Int) - m < 30) := by omega
  have hmain : fetch_and_cache_options_data provider symbol expiry_date now fs =
      fetchFresh provider symbol (cachePath symbol expiry_date) now fs := by
    simp [fetch_and_cache_options_data, h, hnlt]
  refine ⟨hmain, ?_, ?_, ?_⟩
  · rw [hmain]; exact fetchFresh_calls provider symbol _ now fs
  · intro fields hp
    rw [hmain]
    simp only [fetchFresh, hp]
    exact ⟨lookup_write_self fs _ now _, trivial⟩
  · intro e hp
    rw [hmain]
    simp only [fetchFresh, hp]

/-- Witness for C7: a stale entry plus a succeeding provider is
overwritten with the stamped fresh snapshot. -/
theorem c7_stale_overwrite_witness :
    (fetch_and_cache_options_data okProvider "NIFTY" "30-Jan-2025" 31 sampleFS).fs.lookup
        (cachePath "NIFTY" "30-Jan-2025") =
      some (31, .valid (Json.obj (setField okFields "fetch_timestamp"
        (.str (isoformat 31))))) :=
  ((c7_stale_overwrite okProvider "NIFTY" "30-Jan-2025" 31 0 (.valid sampleSnap)
      sampleFS rfl (by decide)).2.2.1 okFields rfl).1

/-- C10: a fresh cache file whose content is not valid JSON makes
`fetch_and_cache_options_data` raise (the `json.load` of the hit path is
not guarded): the exception propagates, nothing is written, the
provider is never called. -/
theorem c10_corrupt_fresh_raises (provider : String → Except String Json)
    (symbol expiry_date : String) (m now : Nat) (fs : FS)
    (h : fs.lookup (cachePath symbol expiry_date) = some (m, .invalid))
    (hfresh : (now : Int) - m < 30) :
    fetch_and_cache_options_data provider symbol expiry_date now fs =
      ⟨.error "JSONDecodeError", fs, []⟩ := by
  simp [fetch_and_cache_options_data, h, hfresh]

/-- Witness for C10: a one-minute-old corrupt cache file. -/
theorem c10_corrupt_fresh_raises_witness :
    fetch_and_cache_options_data failingProvider "NIFTY" "30-Jan-2025" 1 corruptFS =
      ⟨.error "JSONDecodeError", corruptFS, []⟩ :=
  c10_corrupt_fresh_raises failingProvider "NIFTY" "30-Jan-2025" 0 1 corruptFS rfl
    (by decide)

/-- C9: for one symbol and two distinct expiries, the two cache keys
derive two distinct file paths, and two back-to-back calls that both
miss the cache each invoke the provider exactly once, with the symbol
alone as argument. -/
theorem c9_per_expiry_keys (provider : String → Except String Json)
    (symbol e1 e2 : String) (now1 now2 : Nat) (fs : FS)
    (hne : e1 ≠ e2)
    (h1 : fs.lookup (cachePath symbol e1) = none)
    (h2 : fs.lookup (cachePath symbol e2) = none) :
    cachePath symbol e1 ≠ cachePath symbol e2 ∧
    (fetch_and_cache_options_data provider symbol e1 now1 fs).calls = [symbol] ∧
    (fetch_and_cache_options_data provider symbol e2 now2
      (fetch_and_cache_options_data provider symbol e1 now1 fs).fs).calls = [symbol] := by
  have hpne : cachePath symbol e1 ≠ cachePath symbol e2 :=
    fun hh => hne (cachePath_inj symbol e1 e2 hh)
  have hr1 : fetch_and_cache_options_data provider symbol e1 now1 fs =
      fetchFresh provider symbol (cachePath symbol e1) now1 fs := by
    simp [fetch_and_cache_options_data, h1]
  have hl2 : (fetch_and_cache_options_data provider symbol e1 now1 fs).fs.lookup
      (cachePath symbol e2) = none := by
    rw [hr1, fetchFresh_lookup_ne provider symbol (cachePath symbol e1)
      (cachePath symbol e2) now1 fs hpne]
    exact h2
  refine ⟨hpne, ?_, ?_⟩
  · rw [hr1]; exact fetchFresh_calls provider symbol _ now1 fs
  · generalize hg : (fetch_and_cache_options_data provider symbol e1 now1 fs).fs = fs1 at hl2 ⊢
    have hr2 : fetch_and_cache_options_data provider symbol e2 now2 fs1 =
        fetchFresh provider symbol (cachePath symbol e2) now2 fs1 := by
      simp [fetch_and_cache_options_data, hl2]
    rw [hr2]; exact fetchFresh_calls provider symbol _ now2 fs1

/-- Witness for C9: empty cache, expiries 30-Jan-2025 and 06-Feb-2025. -/
theorem c9_per_expiry_keys_witness :
    cachePath "NIFTY" "30-Jan-2025" ≠ cachePath "NIFTY" "06-Feb-2025" ∧
    (fetch_and_cache_options_data okProvider "NIFTY" "30-Jan-2025" 5 ⟨[]⟩).calls = ["NIFTY"] ∧
    (fetch_and_cache_options_data okProvider "NIFTY" "06-Feb-2025" 6
      (fetch_and_cache_options_data okProvider "NIFTY" "30-Jan-2025" 5 ⟨[]⟩).fs).calls =
      ["NIFTY"] :=
  c9_per_expiry_keys okProvider "NIFTY" "30-Jan-2025" "06-Feb-2025" 5 6 ⟨[]⟩
    (by decide) rfl rfl

/-- C5 counterexample: when the symbol file exists but `open()` itself
raises (an unreadable file), the exception propagates — `open` sits
outside the `try` — so "never raises, for every state including an
unreadable file" is false. -/
theorem c5_counterexample :
    load_nse_derivative_symbols SymFileState.openFails = .error "OSError" := rfl

/-- C5 amended: the loader returns without error for every file state
except a failing `open`; for an absent file, unparsable content, or a
parsed non-list it returns exactly the default symbol list. -/
theorem c5_degrades_to_default (st : SymFileState) :
    (st ≠ SymFileState.openFails → ∃ l, load_nse_derivative_symbols st = .ok l) ∧
    ((st = SymFileState.absent ∨ st = SymFileState.loadRaises ∨
        st = SymFileState.parsedNonList) →
      load_nse_derivative_symbols st = .ok get_default_derivative_symbols) := by
  constructor
  · intro hne
    cases st with
    | absent => exact ⟨_, rfl⟩
    | openFails => exact absurd rfl hne
    | loadRaises => exact ⟨_, rfl⟩
    | parsedNonList => exact ⟨_, rfl⟩
    | parsedList xs => exact ⟨_, rfl⟩
  · intro hcase
    rcases hcase with h | h | h <;> subst h <;> rfl

/-- Witness for C5 at the absent state. -/
theorem c5_degrades_to_default_witness :
    (∃ l, load_nse_derivative_symbols SymFileState.absent = .ok l) ∧
    load_nse_derivative_symbols SymFileState.absent =
      .ok get_default_derivative_symbols :=
  ⟨(c5_degrades_to_default SymFileState.absent).1 (fun h => SymFileState.noConfusion h),
   (c5_degrades_to_default SymFileState.absent).2 (Or.inl rfl)⟩

/-- C6 counterexample: with no local symbol file the loader does return
the fixed 11-symbol default list, but that list is NOT sorted
lexicographically (it begins `NIFTY, BANKNIFTY, ...`), so "sorted
lexicographically" is false. -/
theorem c6_counterexample :
    load_nse_derivative_symbols SymFileState.absent =
      .ok get_default_derivative_symbols ∧
    ¬ List.Sorted (fun a b : String => a ≤ b) get_default_derivative_symbols := by
  refine ⟨rfl, ?_⟩
  intro hs
  have hmem : "BANKNIFTY" ∈ ("BANKNIFTY" :: ["FINNIFTY", "MIDCPNIFTY",
      "RELIANCE", "TCS", "HDFCBANK", "ICICIBANK", "INFY", "SBIN", "LT"]) :=
    List.mem_cons_self _ _
  have hle : ("NIFTY" : String) ≤ "BANKNIFTY" :=
    (List.sorted_cons.mp hs).1 "BANKNIFTY" hmem
  have hlt : ("BANKNIFTY" : String) < "NIFTY" := by
    rw [String.lt_iff_toList_lt]
    decide
  exact not_lt.mpr hle hlt

/-- C6 amended: with no local symbol file the loader returns exactly the
fixed default list of 11 distinct symbols, in its hardcoded (unsorted)
order. -/
theorem c6_default_eleven :
    load_nse_derivative_symbols SymFileState.absent =
      .ok get_default_derivative_symbols ∧
    get_default_derivative_symbols.length = 11 ∧
    get_default_derivative_symbols.Nodup := by
  refine ⟨rfl, rfl, ?_⟩
  decide

theorem flatMap_chunkEvents (chunks : List Chunk) :
    chunks.flatMap chunkEvents =
      (textFragments chunks).map (fun t => "data: " ++ t ++ "\n\n") := by
  induction chunks with
  | nil => rfl
  | cons c rest ih =>
    simp only [textFragments, List.flatMap_cons] at ih ⊢
    rw [chunkEvents_eq c, ih, List.map_append]

/-- C3: when the provider stream completes without error, the relay
emits exactly one `data: <text>` event per text-carrying fragment, in
order and verbatim, followed by exactly one `data: [END]` sentinel; in
particular the fragment sequence `["Hello ", "world"]` yields exactly
`data: Hello \n\n`, `data: world\n\n`, `data: [END]\n\n`. -/
theorem c3_stream_relay :
    (∀ chunks : List Chunk,
      stream_analysis_with_gemini ⟨chunks, none⟩ =
        (textFragments chunks).map (fun t => "data: " ++ t ++ "\n\n") ++
          ["data: [END]\n\n"]) ∧
    stream_analysis_with_gemini helloStream =
      ["data: Hello \n\n", "data: world\n\n", "data: [END]\n\n"] := by
  constructor
  · intro chunks
    show chunks.flatMap chunkEvents ++ ["data: [END]\n\n"] = _
    rw [flatMap_chunkEvents]
  · rfl

/-- C4 counterexample: when the cache returns absent, the response body
is the single event `data: Error fetching data` — which is neither
`data: [END]` nor of the form `data: Error analyzing with Gemini: <m>` —
so the claimed ending contract fails on that body. -/
theorem c4_counterexample :
    stream_analysis none ⟨[], none⟩ = ["data: Error fetching data\n\n"] ∧
    endsWithContract (stream_analysis none ⟨[], none⟩) = false :=
  ⟨rfl, rfl⟩

/-- C4 amended: every `/stream_analysis` response body ends with
`data: [END]`, or an event of the form
`data: Error analyzing with Gemini: <message>`, or is the single
absent-cache event `data: Error fetching data`. -/
theorem c4_body_ending (options_data : Option Json) (s : GeminiStream) :
    endsWithContractAmended (stream_analysis options_data s) = true := by
  cases options_data with
  | none => rfl
  | some j =>
    by_cases hf : j.falsy
    · have hb : stream_analysis (some j) s = ["data: Error fetching data\n\n"] := by
        simp [stream_analysis, hf]
      rw [hb]; rfl
    · have hb : stream_analysis (some j) s = stream_analysis_with_gemini s := by
        simp [stream_analysis, hf]
      rw [hb]
      unfold stream_analysis_with_gemini endsWithContractAmended
      cases he : s.error with
      | none =>
        rw [List.getLast?_concat]
        rfl
      | some e =>
        rw [List.getLast?_concat]
        have hpre : strStartsWith "data: Error analyzing with Gemini: "
            ("data: Error analyzing with Gemini: " ++ e ++ "\n\n") = true := by
          have h1 := strStartsWith_append "data: Error analyzing with Gemini: " (e ++ "\n\n")
          rwa [← String.append_assoc] at h1
        simp [hpre]

theorem expiriesComputation_ok (pr : Except String Json) (l : List String)
    (h : expiriesComputation pr = .ok l) :
    ∃ raw keyed, rawExpiries pr = .ok raw ∧ keyExpiries raw = .ok keyed ∧
      l = (List.insertionSort keyLE keyed).map (fun e => e.2) := by
  unfold expiriesComputation at h
  cases hraw : rawExpiries pr with
  | error e => rw [hraw] at h; exact Except.noConfusion h
  | ok raw =>
    rw [hraw] at h
    dsimp only at h
    cases hkey : keyExpiries raw with
    | error e => rw [hkey] at h; exact Except.noConfusion h
    | ok keyed =>
      rw [hkey] at h
      dsimp only at h
      cases h
      exact ⟨raw, keyed, rfl, hkey, rfl⟩

/-- C8: on the success path `/get_expiries` returns a chronological
permutation of the provider's raw expiry strings (each consecutive pair
ordered by its parsed day-month-year date); when anything in the `try`
raises, it returns the empty list. -/
theorem c8_expiries_sorted (providerResult : Except String Json) :
    (∀ l, expiriesComputation providerResult = .ok l →
      get_expiries providerResult = l ∧
      (∃ raw, rawExpiries providerResult = .ok raw ∧ l.Perm raw) ∧
      l.Pairwise (fun a b => chronLE a b = true)) ∧
    (∀ e, expiriesComputation providerResult = .error e →
      get_expiries providerResult = []) := by
  constructor
  · intro l hok
    have hget : get_expiries providerResult = l := by
      simp [get_expiries, hok]
    obtain ⟨raw, keyed, hraw, hkey, hl⟩ := expiriesComputation_ok providerResult l hok
    refine ⟨hget, ?_, ?_⟩
    · refine ⟨raw, hraw, ?_⟩
      rw [hl, ← keyExpiries_map_snd raw keyed hkey]
      exact List.Perm.map _ (List.perm_insertionSort keyLE keyed)
    · have hsorted : (List.insertionSort keyLE keyed).Pairwise keyLE :=
        List.sorted_insertionSort keyLE keyed
      have hparse : ∀ p ∈ List.insertionSort keyLE keyed,
          strptimeDMY p.2 = some p.1 := by
        intro p hp
        exact keyExpiries_parse raw keyed hkey p
          ((List.mem_insertionSort keyLE).mp hp)
      rw [hl, List.pairwise_map]
      refine hsorted.imp_of_mem ?_
      intro a b ha hb hab
      have hpa := hparse a ha
      have hpb := hparse b hb
      simp only [chronLE, hpa, hpb]
      exact hab
  · intro e herr
    simp [get_expiries, herr]

/-- Witness for C8: a fixed provider payload with two out-of-order
expiries is returned sorted; a raising provider yields the empty
list. -/
theorem c8_expiries_sorted_witness :
    (get_expiries (Except.ok (Json.obj okFields)) = ["30-Jan-2025", "06-Feb-2025"] ∧
      (∃ raw, rawExpiries (Except.ok (Json.obj okFields)) = .ok raw ∧
        (["30-Jan-2025", "06-Feb-2025"] : List String).Perm raw) ∧
      (["30-Jan-2025", "06-Feb-2025"] : List String).Pairwise
        (fun a b => chronLE a b = true)) ∧
    get_expiries (Except.error "ConnectionError") = [] :=
  ⟨(c8_expiries_sorted (Except.ok (Json.obj okFields))).1
      ["30-Jan-2025", "06-Feb-2025"] rfl,
   (c8_expiries_sorted (Except.error "ConnectionError")).2 "ConnectionError" rfl⟩

end App
